import Mathlib

/-
Verification development for the `async-fetcher` library.

The development shallowly embeds the parts of the library that the
specification talks about:

* `fetch_result.py`  — the `FetchResult` record (constructor, `status`
  property with the JSON-RPC override, `__eq__`, `result` accessor);
* `fetch.py`         — `AsyncFetch.mk_task` (task bundle construction),
  `AsyncFetch.fetch` (the per-task retry loop) and `AsyncFetch._go`
  (fan-out / gather / key correlation);
* `utils.py`         — `TCPConnectorMixIn` (connection-pool ownership,
  lazy creation and teardown).

Python run-time values that flow through these functions (JSON bodies,
headers, statuses) are modelled by the inductive type `Val`; Python
exceptions are modelled with `Except`; the network is modelled as an
oracle assigning to every attempt index the outcome of that attempt.
-/

deriving instance DecidableEq for Except

namespace AsyncFetcher

/-- Python `str.lower()` (ASCII case folding, which covers every string
this library lower-cases: HTTP methods, content types, response-type
names). -/
def pyLower (s : String) : String :=
  String.mk (s.toList.map Char.toLower)

/-! ## Python value model -/

mutual
/-- A Python value as it occurs in this library: `None`, booleans, ints,
strings, lists, string-keyed dicts, `bytes`, and `aiohttp.FormData`
(an opaque marker, as the library never inspects it). -/
inductive Val where
  | none
  | bool (b : Bool)
  | int (n : Int)
  | str (s : String)
  | list (xs : ValList)
  | dict (kvs : ValDict)
  | bytes (s : String)
  | formdata
deriving DecidableEq

/-- A Python list of values. -/
inductive ValList where
  | nil
  | cons (v : Val) (tl : ValList)
deriving DecidableEq

/-- A Python dict with string keys, in insertion order. -/
inductive ValDict where
  | nil
  | cons (k : String) (v : Val) (tl : ValDict)
deriving DecidableEq
end

/-- First binding of a key in a dict (Python dicts have unique keys, so
this is the binding). -/
def ValDict.lookup : ValDict → String → Option Val
  | .nil, _ => Option.none
  | .cons k v tl, key => if k = key then some v else tl.lookup key

/-- Python truthiness of a value (`bool(v)`): `None`, `False`, `0`, empty
string/list/dict/bytes are falsy; a `FormData` instance is truthy. -/
def Val.truthy : Val → Bool
  | .none => false
  | .bool b => b
  | .int n => n != 0
  | .str s => s ≠ ""
  | .list .nil => false
  | .list (.cons _ _) => true
  | .dict .nil => false
  | .dict (.cons _ _ _) => true
  | .bytes s => s ≠ ""
  | .formdata => true

/-- `isinstance(v, dict)`. -/
def Val.isDict : Val → Bool
  | .dict _ => true
  | _ => false

/-- Python `key in v` for a dict value (`False` on non-dicts, which the
library never reaches because it tests `isinstance(v, dict)` first). -/
def Val.contains (v : Val) (key : String) : Bool :=
  match v with
  | .dict kvs => (kvs.lookup key).isSome
  | _ => false

/-- Python subscription `v[key]`: `KeyError` / `TypeError` (modelled as
`Except.error`) when the key is absent or `v` is not a dict. -/
def Val.getItem (v : Val) (key : String) : Except Unit Val :=
  match v with
  | .dict kvs =>
    match kvs.lookup key with
    | some w => .ok w
    | Option.none => .error ()
  | _ => .error ()

/-! ## `fetch_result.py`: the `FetchResult` record -/

/-- The state of a `FetchResult` instance: the fields `headers`,
`_status` and `_result` as stored by `FetchResult.__init__`. -/
structure FetchResult where
  headers : Val
  store_status : Val
  store_result : Val
deriving DecidableEq

/-- `FetchResult.__init__(headers, result, status)`: stores `headers` and
`status` unchanged and stores `result or {}` — any falsy `result`
(`None`, `''`, `0`, `[]`, `{}`) is replaced by the empty dict. -/
def mkFetchResult (headers result status : Val) : FetchResult :=
  { headers := headers
    store_status := status
    store_result := if result.truthy then result else .dict .nil }

/-- The `result` property: returns `self._result` unchanged. -/
def FetchResult.result (fr : FetchResult) : Val :=
  fr.store_result

/-- `FetchResult.is_jsonrpc`: `isinstance(self._result, dict) and
'jsonrpc' in self._result`. -/
def FetchResult.is_jsonrpc (fr : FetchResult) : Bool :=
  fr.store_result.isDict && fr.store_result.contains "jsonrpc"

/-- The `status` property: when the body is a JSON-RPC dict that carries
an `error` key, return `self._result['error']['code']`; otherwise return
the stored transport status.  Subscription failures (a malformed error
object) surface as a raised `KeyError`, modelled by `Except.error`. -/
def FetchResult.status (fr : FetchResult) : Except Unit Val :=
  if fr.is_jsonrpc && fr.store_result.contains "error" then do
    let e ← fr.store_result.getItem "error"
    e.getItem "code"
  else .ok fr.store_status

/-- `FetchResult.__eq__`: as written in the source it compares
`self.status == other.status and self.headers == self.headers and
self.result == self.result` — the last two conjuncts compare fields of
`self` against themselves.  Both `status` properties are evaluated, so a
raising `status` propagates. -/
def FetchResult.pyEq (a b : FetchResult) : Except Unit Bool := do
  let sa ← a.status
  let sb ← b.status
  pure (decide (sa = sb) && decide (a.headers = a.headers)
        && decide (a.result = a.result))

/-! ## `fetch.py`: `AsyncFetch.mk_task`, the task builder -/

/-- A URL, split into everything before the query string and the query
parameters, in order.  `mk_task` only ever touches the query component. -/
structure Url where
  base : String
  query : List (String × String)
deriving DecidableEq

/-- Models `furl(url).set(query).url` from the external `furl` library:
`furl.set` with a mapping as its first argument (the `args` component)
assigns the URL's query parameters wholesale — the previous query string
is discarded and replaced by `query` — and the URL is re-serialized. -/
def furlSetQuery (u : Url) (q : List (String × String)) : Url :=
  { u with query := q }

/-- Python `headers[k] = v` on a dict modelled as an insertion-ordered
association list with unique keys: an existing binding of `k` is updated
in place, otherwise `(k, v)` is appended. -/
def dictSet (kvs : List (String × String)) (k v : String) :
    List (String × String) :=
  if (kvs.map Prod.fst).contains k then
    kvs.map (fun kv => if kv.1 = k then (k, v) else kv)
  else kvs ++ [(k, v)]

/-- Python `k in headers` for the headers dict (exact key match). -/
def hasHeaderKey (kvs : List (String × String)) (k : String) : Bool :=
  (kvs.map Prod.fst).contains k

/-- `isinstance(data, (bytes, str, FormData))` — the values `mk_task`
refuses to JSON-serialize. -/
def Val.isRawData : Val → Bool
  | .str _ => true
  | .bytes _ => true
  | .formdata => true
  | _ => false

/-- The task bundle dict returned by `AsyncFetch.mk_task`. -/
structure TaskBundle where
  method : String
  url : Url
  data : Val
  headers : List (String × String)
  response_type : String
  timeout : Option Int
  do_not_wait : Bool
  num_retries : Int
  fail_silently : Bool
deriving DecidableEq

/-- `AsyncFetch.mk_task`.  The `headers` parameter stands for
`headers or {}` (both `None` and `{}` are modelled as `[]`); the guards
`if query:`, `if api_key:` and `if language_code:` test Python
truthiness, i.e. non-emptiness.  `json.dumps(data, cls=json_encoder)` is
abstracted by the `encode` parameter. -/
def mk_task (url : Url) (method : String) (data : Val)
    (headers : List (String × String)) (api_key : String)
    (response_type : String) (language_code : String)
    (timeout : Option Int) (query : List (String × String))
    (do_not_wait : Bool) (encode : Val → String) (num_retries : Int)
    (fail_silently : Bool) (autodetect_content_type : Bool) : TaskBundle :=
  let url := if query ≠ [] then furlSetQuery url query else url
  -- if no content-type specified and autodetect flag was set
  let headers :=
    if autodetect_content_type ∧ ¬ hasHeaderKey headers "content-type" then
      match data with
      | .dict _ => dictSet headers "content-type" "application/json"
      | .str _ => dictSet headers "content-type" "text/html"
      | _ => headers
    else headers
  -- do not serialize FormData instances (nor bytes / str)
  let data :=
    if data.truthy ∧ ¬ data.isRawData then Val.str (encode data) else data
  let headers :=
    if api_key ≠ "" then dictSet headers "api-key" api_key else headers
  let headers :=
    if language_code ≠ "" then dictSet headers "accept-language" language_code
    else headers
  { method := pyLower method
    url := url
    data := if data.truthy then data else .dict .nil
    headers := headers
    response_type := pyLower response_type
    timeout := timeout
    do_not_wait := do_not_wait
    num_retries := num_retries
    fail_silently := fail_silently }

/-! ## `fetch.py`: `AsyncFetch.fetch`, the per-task retry loop

The network is modelled as an oracle mapping each attempt index to the
outcome of `session.request` on that attempt: either a response (status,
declared content type, a decoder from aiohttp method name — `json`,
`text`, … — to the decoded value, and response headers), or a raised
`asyncio.TimeoutError`, or a raised `aiohttp ClientOSError`.  Body
decoding itself is modelled as total. -/

/-- Outcome of one attempt of `session.request` (plus body decoding). -/
inductive AttemptOutcome where
  | response (status : Nat) (content_type : String)
      (decode : String → Val) (headers : Val)
  | timeout
  | oserror

/-- The fields of an `AsyncFetchNetworkError` that `fetch` fills in
(`response_code`, `retries_left`, `max_retries`); `code` always equals
`response_code` at the raise sites inside `fetch`, and the remaining
constructor arguments are presentation-only. -/
structure NetworkError where
  response_code : Int
  retries_left : Int
  max_retries : Int
deriving DecidableEq

/-- What `fetch` can raise: a network error after the budget is
exhausted, or — were the loop ever exited with no recorded exception —
the `TypeError` that `raise None` would produce. -/
inductive FetchError where
  | network (e : NetworkError)
  | typeError
deriving DecidableEq

/-- The retryable gateway/timeout status codes of `fetch`:
`[524, 504, 502, 408]`. -/
def retryableStatuses : List Nat := [524, 504, 502, 408]

/-- Substring test on character lists (helper for Python `in` on
strings). -/
def charsContain (needle : List Char) : List Char → Bool
  | [] => needle.isEmpty
  | c :: rest => needle.isPrefixOf (c :: rest) || charsContain needle rest

/-- Python `needle in hay` for strings. -/
def strContains (hay needle : String) : Bool :=
  charsContain needle.toList hay.toList

/-- Body decoding in `fetch`: if `response_type == 'json'` but `'json'`
does not occur in the lower-cased declared content type, fall back to
`response.text()`; otherwise call the accessor named by
`response_type`. -/
def decodeResponse (response_type content_type : String)
    (decode : String → Val) : Val :=
  if response_type = "json" ∧
      ¬ strContains (pyLower content_type) response_type
  then decode "text"
  else decode response_type

/-- Resolution of the effective retry budget at the top of `fetch`:
take the bundle's `num_retries`, replace it by the executor default when
negative, then floor the result at 1 ("we have to perform the request
once at least"). -/
def effectiveNumRetries (bundle_num_retries self_max_retries : Int) : Int :=
  let n := if bundle_num_retries < 0 then self_max_retries
           else bundle_num_retries
  if n ≤ 1 then 1 else n

/-- The `ResultRecord` `FetchResult(result=None, headers=None, status=0)`
returned for fire-and-forget tasks and for silent failures. -/
def emptyFetchResult : FetchResult :=
  mkFetchResult .none .none (.int 0)

/-- The `response_code` that `fetch` records for an attempt that failed
retryably: the response status for a retryable gateway code, `0` for a
timeout or connection error. -/
def outcomeErrorCode : AttemptOutcome → Int
  | .response st _ _ _ => (st : Int)
  | .timeout => 0
  | .oserror => 0

/-- Whether an attempt with this outcome makes the `while` loop of
`fetch` continue into another iteration (for the given `do_not_wait`
flag): raised timeouts/connection errors always do; a response does so
exactly when `do_not_wait` is off and its status is retryable. -/
def retriedOutcome (do_not_wait : Bool) : AttemptOutcome → Bool
  | .timeout => true
  | .oserror => true
  | .response st _ _ _ => !do_not_wait && retryableStatuses.contains st

/-- The `while num_retries > 0` loop of `fetch`.  `fuel` is the current
value of `num_retries`, `attempt` indexes the oracle, `last` is
`last_exception`.  Each iteration decrements the budget, performs the
request, and either returns a `FetchResult`, or records a
`NetworkError` (with `retries_left` = the decremented budget and the
saved `max_retries`), sleeps, and loops.  On falling out of the loop:
return the empty result if `fail_silently`, else re-raise the last
exception. -/
def fetchLoop (response_type : String) (do_not_wait fail_silently : Bool)
    (oracle : Nat → AttemptOutcome) (max_retries : Int) :
    Nat → Nat → Option NetworkError → Except FetchError FetchResult
  | 0, _, last =>
    if fail_silently then .ok emptyFetchResult
    else
      match last with
      | some e => .error (.network e)
      | Option.none => .error .typeError
  | fuel + 1, attempt, _ =>
    match oracle attempt with
    | .timeout =>
      fetchLoop response_type do_not_wait fail_silently oracle max_retries
        fuel (attempt + 1) (some ⟨0, (fuel : Int), max_retries⟩)
    | .oserror =>
      fetchLoop response_type do_not_wait fail_silently oracle max_retries
        fuel (attempt + 1) (some ⟨0, (fuel : Int), max_retries⟩)
    | .response st ct dec hd =>
      if do_not_wait then .ok emptyFetchResult
      else if retryableStatuses.contains st then
        fetchLoop response_type do_not_wait fail_silently oracle max_retries
          fuel (attempt + 1) (some ⟨(st : Int), (fuel : Int), max_retries⟩)
      else
        .ok (mkFetchResult hd (decodeResponse response_type ct dec) (.int st))

/-- `AsyncFetch.fetch(session, bundle)`: resolve the effective retry
budget from the bundle and the executor's configured default
(`self.max_retries`), save it as `max_retries`, and run the retry loop
with no exception recorded yet.  The bundle fields `method`, `url`,
`data`, `headers` and `timeout` only parameterize `session.request` and
are absorbed into the oracle. -/
def fetch (self_max_retries : Int) (bundle : TaskBundle)
    (oracle : Nat → AttemptOutcome) : Except FetchError FetchResult :=
  let n := effectiveNumRetries bundle.num_retries self_max_retries
  fetchLoop bundle.response_type bundle.do_not_wait bundle.fail_silently
    oracle n n.toNat 0 Option.none

/-! ## `fetch.py`: `AsyncFetch._go`, the orchestrator

`_go` builds one fetch coroutine per bundle of `task_map.values()`,
awaits `asyncio.gather(*tasks)` — which by its contract returns the
results positionally, in the order the awaitables were passed, never in
completion order — and zips `task_map.keys()` with the result list.
The mapping is modelled as an insertion-ordered association list and
each task's completed execution by `exec` applied to its bundle. -/

/-- `asyncio.gather`: results in argument order (completion order is
irrelevant to the returned list). -/
def asyncioGather {R : Type} (results : List R) : List R :=
  results

/-- The result-assembly step of `AsyncFetch._go`:
`OrderedDict(zip(self.task_map.keys(), await asyncio.gather(*tasks)))`
where `tasks` holds one fetch per value of the task map, in order. -/
def goAssemble {K B R : Type} (task_map : List (K × B)) (exec : B → R) :
    List (K × R) :=
  let tasks := (task_map.map Prod.snd).map exec
  let res := asyncioGather tasks
  (task_map.map Prod.fst).zip res

/-! ## `utils.py`: `TCPConnectorMixIn`, connection-pool ownership

A TCP connector is modelled by an identity and a closed flag; the mixin
state holds the `_connector_owner` flag and the memoized
`_tcp_connector`, plus a counter supplying fresh identities for
constructor calls.  `connector.close()` is the update of the closed
flag of the memoized connector object. -/

/-- An `aiohttp.TCPConnector` object: identity plus closed flag. -/
structure Connector where
  cid : Nat
  closed : Bool
deriving DecidableEq

/-- The mixin-relevant state of an `AsyncFetch` instance. -/
structure MixInState where
  connector_owner : Bool
  tcp_connector : Option Connector
  next_cid : Nat
deriving DecidableEq

/-- `AsyncFetch.__init__`: `self._tcp_connector = tcp_connector;
self._connector_owner = not bool(tcp_connector)` — the instance owns its
connector exactly when none was supplied (a supplied connector object is
truthy). -/
def initMixIn (tcp_connector : Option Connector) : MixInState :=
  { connector_owner := tcp_connector.isNone
    tcp_connector := tcp_connector
    next_cid := 0 }

/-- `TCPConnectorMixIn.get_tcp_connector`: when not the owner, return the
stored (externally supplied) connector as-is; when the owner, return the
memoized connector if present and not closed, otherwise construct a
fresh open connector, memoize it and return it. -/
def get_tcp_connector (s : MixInState) : Option Connector × MixInState :=
  if s.connector_owner = false then (s.tcp_connector, s)
  else
    match s.tcp_connector with
    | some c =>
      if c.closed = false then (some c, s)
      else
        let c' : Connector := ⟨s.next_cid, false⟩
        (some c', { s with tcp_connector := some c'
                           next_cid := s.next_cid + 1 })
    | Option.none =>
      let c' : Connector := ⟨s.next_cid, false⟩
      (some c', { s with tcp_connector := some c'
                         next_cid := s.next_cid + 1 })

/-- `TCPConnectorMixIn.__del__`: when the owner, obtain the connector via
`get_tcp_connector` and close it unless already closed
(`not connector.closed and connector.close()`); a borrower does
nothing.  When the owner, `get_tcp_connector` always yields a connector,
so the `none` arm below is unreachable. -/
def mixinDel (s : MixInState) : MixInState :=
  if s.connector_owner then
    let r := get_tcp_connector s
    match r.1 with
    | some c =>
      if c.closed then r.2
      else { r.2 with tcp_connector := some { c with closed := true } }
    | Option.none => r.2
  else s

/-! ## Helper lemmas -/

/-- A successful subscription implies key membership. -/
lemma contains_of_getItem_ok (v : Val) (k : String) (w : Val)
    (h : v.getItem k = .ok w) : v.contains k = true := by
  cases v
  case dict kvs =>
    cases hkv : kvs.lookup k
    · simp [Val.getItem, hkv] at h
    · simp [Val.contains, hkv]
  all_goals simp [Val.getItem] at h

/-! ## C10 -/

/-- C10: `FetchResult.__init__` stores `result or {}`: any falsy result
value is replaced by the empty dict, so the `result` accessor never
yields `None` or the empty string; in particular a body decoded to the
empty string is reported as the empty mapping. -/
theorem falsy_result_stored_as_empty_dict (h r s : Val) :
    (Val.truthy r = false → (mkFetchResult h r s).result = Val.dict .nil) ∧
    (mkFetchResult h r s).result ≠ Val.none ∧
    (mkFetchResult h r s).result ≠ Val.str "" ∧
    (mkFetchResult h (Val.str "") s).result = Val.dict .nil := by
  refine ⟨fun hf => by simp [mkFetchResult, FetchResult.result, hf], ?_, ?_, ?_⟩
  · by_cases ht : Val.truthy r
    · simp only [mkFetchResult, FetchResult.result, ht, if_true]
      intro he
      rw [he] at ht
      simp [Val.truthy] at ht
    · simp [mkFetchResult, FetchResult.result, ht]
  · by_cases ht : Val.truthy r
    · simp only [mkFetchResult, FetchResult.result, ht, if_true]
      intro he
      rw [he] at ht
      simp [Val.truthy] at ht
    · simp [mkFetchResult, FetchResult.result, ht]
  · simp [mkFetchResult, FetchResult.result, Val.truthy]

/-- C10 witness at a concrete falsy input. -/
theorem falsy_result_stored_as_empty_dict_witness :
    (mkFetchResult Val.none (Val.str "") (Val.int 200)).result = Val.dict .nil ∧
    (mkFetchResult Val.none (Val.str "") (Val.int 200)).result ≠ Val.none :=
  ⟨(falsy_result_stored_as_empty_dict Val.none (Val.str "") (Val.int 200)).1
    (by decide),
   (falsy_result_stored_as_empty_dict Val.none (Val.str "") (Val.int 200)).2.1⟩

/-! ## C7 -/

/-- C7: the `status` property returns `error.code` exactly when the body
is a dict containing both `jsonrpc` and `error` keys, and the stored
transport status for every other record. -/
theorem status_jsonrpc_error_override (fr : FetchResult) (e c : Val) :
    (fr.store_result.isDict = true →
     fr.store_result.contains "jsonrpc" = true →
     fr.store_result.getItem "error" = .ok e →
     e.getItem "code" = .ok c →
     fr.status = .ok c) ∧
    ((fr.is_jsonrpc && fr.store_result.contains "error") = false →
     fr.status = .ok fr.store_status) := by
  constructor
  · intro hd hj he hc
    have herr : fr.store_result.contains "error" = true :=
      contains_of_getItem_ok _ _ _ he
    have hcond : (fr.is_jsonrpc && fr.store_result.contains "error") = true := by
      simp [FetchResult.is_jsonrpc, hd, hj, herr]
    simp [FetchResult.status, hcond, he, hc, Bind.bind, Except.bind]
  · intro hcond
    simp [FetchResult.status, hcond]

/-- C7 witness: a JSON-RPC error envelope with transport status 200 is
reported with status 500, and a JSON-RPC body without `error` keeps the
transport status. -/
theorem status_jsonrpc_error_override_witness :
    (mkFetchResult Val.none
      (Val.dict (.cons "id" (.str "u") (.cons "jsonrpc" (.str "2.0")
        (.cons "error" (Val.dict (.cons "code" (.int 500) .nil)) .nil))))
      (Val.int 200)).status = .ok (Val.int 500) ∧
    (mkFetchResult Val.none (Val.dict (.cons "jsonrpc" (.str "2.0") .nil))
      (Val.int 200)).status = .ok (Val.int 200) :=
  ⟨(status_jsonrpc_error_override
      (mkFetchResult Val.none
        (Val.dict (.cons "id" (.str "u") (.cons "jsonrpc" (.str "2.0")
          (.cons "error" (Val.dict (.cons "code" (.int 500) .nil)) .nil))))
        (Val.int 200))
      (Val.dict (.cons "code" (.int 500) .nil)) (Val.int 500)).1
      (by decide) (by decide) (by decide) (by decide),
   (status_jsonrpc_error_override
      (mkFetchResult Val.none (Val.dict (.cons "jsonrpc" (.str "2.0") .nil))
        (Val.int 200)) Val.none Val.none).2 (by decide)⟩

/-! ## C9 -/

/-- C9: `__eq__` compares the two `status` values but compares `headers`
and `result` of `self` against themselves, so equality holds iff the
statuses agree — the headers and body never influence it. -/
theorem pyEq_depends_only_on_status (a b : FetchResult) (sa sb : Val)
    (ha : a.status = .ok sa) (hb : b.status = .ok sb) :
    a.pyEq b = .ok (decide (sa = sb)) ∧
    (a.pyEq b = .ok true ↔ sa = sb) := by
  have h1 : a.pyEq b = .ok (decide (sa = sb)) := by
    simp [FetchResult.pyEq, ha, hb, Bind.bind, Except.bind, Pure.pure,
      Except.pure]
  refine ⟨h1, ?_⟩
  rw [h1]
  simp

/-- C9 witness: two records with the same status but different headers
and bodies compare equal. -/
theorem pyEq_depends_only_on_status_witness :
    (mkFetchResult (Val.dict (.cons "h" (.int 1) .nil)) (.str "abc")
      (.int 200)).pyEq (mkFetchResult Val.none Val.none (.int 200))
      = .ok true :=
  (pyEq_depends_only_on_status
    (mkFetchResult (Val.dict (.cons "h" (.int 1) .nil)) (.str "abc") (.int 200))
    (mkFetchResult Val.none Val.none (.int 200))
    (Val.int 200) (Val.int 200) (by decide) (by decide)).2.mpr rfl

/-! ## C3 -/

/-- C3: `_go` zips the original keys, in their original order, with the
gathered results, so the returned mapping has exactly the original keys
in insertion order and binds each key to the result of its own task. -/
theorem go_preserves_keys_and_correlates {K B R : Type}
    (task_map : List (K × B)) (exec : B → R) :
    goAssemble task_map exec = task_map.map (fun kv => (kv.1, exec kv.2)) ∧
    (goAssemble task_map exec).map Prod.fst = task_map.map Prod.fst := by
  have h : goAssemble task_map exec
      = task_map.map fun kv => (kv.1, exec kv.2) := by
    induction task_map with
    | nil => rfl
    | cons hd tl ih =>
      simpa [goAssemble, asyncioGather] using ih
  exact ⟨h, by rw [h]; simp⟩

/-- `dictSet` with a different key preserves a binding. -/
lemma mem_dictSet_of_ne (kvs : List (String × String)) (k v k' v' : String)
    (hmem : (k, v) ∈ kvs) (hne : k ≠ k') :
    (k, v) ∈ dictSet kvs k' v' := by
  unfold dictSet
  split
  · exact List.mem_map.mpr ⟨(k, v), hmem, by simp [hne]⟩
  · exact List.mem_append_left _ hmem

/-- `dictSet` on an absent key appends the new binding. -/
lemma mem_dictSet_self (kvs : List (String × String)) (k' v' : String)
    (habs : (kvs.map Prod.fst).contains k' = false) :
    (k', v') ∈ dictSet kvs k' v' := by
  unfold dictSet
  rw [habs]
  simp

/-- A binding survives a conditional `dictSet` on a different key. -/
lemma mem_ite_dictSet (kvs : List (String × String)) (k v k' v' : String)
    (c : Prop) [Decidable c] (hmem : (k, v) ∈ kvs) (hne : k ≠ k') :
    (k, v) ∈ (if c then dictSet kvs k' v' else kvs) := by
  split
  · exact mem_dictSet_of_ne kvs k v k' v' hmem hne
  · exact hmem

/-! ## C6 (corrected) -/

/-- C6 counterexample: starting from a URL that already carries the
query parameter `a=1`, supplying the query `{b: 2}` produces a URL whose
query is exactly `b=2` — the pre-existing, non-colliding key `a` is
dropped rather than kept, refuting the merge reading. -/
theorem mk_task_query_counterexample :
    (mk_task ⟨"http://h/", [("a", "1")]⟩ "get" Val.none [] "" "json" ""
      Option.none [("b", "2")] false (fun _ => "E") (-1) false true).url
      = ⟨"http://h/", [("b", "2")]⟩ ∧
    ("a", "1") ∉ (mk_task ⟨"http://h/", [("a", "1")]⟩ "get" Val.none [] ""
      "json" "" Option.none [("b", "2")] false (fun _ => "E") (-1) false
      true).url.query := by
  constructor <;> decide

/-- C6 amended: a non-empty supplied query replaces the URL's existing
query parameters wholesale (existing keys are dropped even when they do
not collide), and the URL is re-serialized from the new parameters. -/
theorem mk_task_query_replaces_existing (url : Url) (method : String)
    (data : Val) (headers : List (String × String))
    (api_key rt lang : String) (timeout : Option Int)
    (query : List (String × String)) (dnw : Bool) (encode : Val → String)
    (nr : Int) (fs auto : Bool) (hq : query ≠ []) :
    (mk_task url method data headers api_key rt lang timeout query dnw
      encode nr fs auto).url = ⟨url.base, query⟩ := by
  simp [mk_task, furlSetQuery, hq]

/-- C6 amended witness. -/
theorem mk_task_query_replaces_existing_witness :
    (mk_task ⟨"http://h/", [("a", "1")]⟩ "get" Val.none [] "" "json" ""
      Option.none [("b", "2"), ("c", "3")] false (fun _ => "E") (-1) false
      true).url = ⟨"http://h/", [("b", "2"), ("c", "3")]⟩ :=
  mk_task_query_replaces_existing ⟨"http://h/", [("a", "1")]⟩ "get" Val.none
    [] "" "json" "" Option.none [("b", "2"), ("c", "3")] false
    (fun _ => "E") (-1) false true (by decide)

/-! ## C5 (corrected) -/

/-- C5 counterexample: with `autodetect_content_type=true` and the empty
mapping as body, the built bundle's body is the empty mapping itself,
not JSON text (the serialization step is guarded by Python truthiness,
which the empty dict fails); and with a mapping body but a caller-
supplied `content-type` header, that header survives unchanged, so the
built headers need not carry `application/json`. -/
theorem mk_task_autodetect_counterexample :
    (mk_task ⟨"http://h/", []⟩ "get" (Val.dict .nil) [] "" "json" ""
      Option.none [] false (fun _ => "{}") (-1) false true).data
      = Val.dict .nil ∧
    (mk_task ⟨"http://h/", []⟩ "get" (Val.dict .nil) [] "" "json" ""
      Option.none [] false (fun _ => "{}") (-1) false true).data
      ≠ Val.str "{}" ∧
    (mk_task ⟨"http://h/", []⟩ "get"
      (Val.dict (.cons "a" (.int 1) .nil)) [("content-type", "text/xml")]
      "" "json" "" Option.none [] false (fun _ => "E") (-1) false
      true).headers = [("content-type", "text/xml")] := by
  refine ⟨by decide, by decide, by decide⟩

/-- C5 amended: with `autodetect_content_type=true`, a mapping body and
no caller-supplied `content-type` header, the built headers contain
`content-type: application/json`; the body is the JSON-encoded text of
the mapping when the mapping is non-empty, and stays the empty mapping
when it is empty.  (`json.dumps` of a dict is never the empty string,
which the `encode` hypothesis records.) -/
theorem mk_task_autodetect_json_content (url : Url) (method : String)
    (kvs : ValDict) (headers : List (String × String))
    (api_key rt lang : String) (timeout : Option Int)
    (query : List (String × String)) (dnw : Bool) (encode : Val → String)
    (nr : Int) (fs : Bool)
    (hct : hasHeaderKey headers "content-type" = false)
    (henc : encode (Val.dict kvs) ≠ "") :
    ("content-type", "application/json")
      ∈ (mk_task url method (Val.dict kvs) headers api_key rt lang timeout
          query dnw encode nr fs true).headers ∧
    (kvs ≠ .nil →
      (mk_task url method (Val.dict kvs) headers api_key rt lang timeout
        query dnw encode nr fs true).data = Val.str (encode (Val.dict kvs))) ∧
    (kvs = .nil →
      (mk_task url method (Val.dict kvs) headers api_key rt lang timeout
        query dnw encode nr fs true).data = Val.dict .nil) := by
  have hmem2 : ("content-type", "application/json")
      ∈ dictSet headers "content-type" "application/json" :=
    mem_dictSet_self headers "content-type" "application/json" hct
  refine ⟨?_, ?_, ?_⟩
  · simp only [mk_task, hct, Val.isRawData]
    simp only [Bool.false_eq_true, not_false_eq_true, and_true, true_and,
      if_true]
    exact mem_ite_dictSet _ _ _ _ _ _
      (mem_ite_dictSet _ _ _ _ _ _ hmem2 (by decide)) (by decide)
  · intro hkvs
    cases kvs with
    | nil => exact absurd rfl hkvs
    | cons k v tl =>
      simp [mk_task, Val.truthy, Val.isRawData, henc]
  · intro hkvs
    subst hkvs
    simp [mk_task, Val.truthy, Val.isRawData]

/-- C5 amended witness. -/
theorem mk_task_autodetect_json_content_witness :
    ("content-type", "application/json")
      ∈ (mk_task ⟨"http://h/", []⟩ "post"
          (Val.dict (.cons "a" (.int 1) .nil)) [("x-lol", "1")] "" "json"
          "" Option.none [] false (fun _ => "ENC") (-1) false
          true).headers ∧
    (mk_task ⟨"http://h/", []⟩ "post" (Val.dict (.cons "a" (.int 1) .nil))
      [("x-lol", "1")] "" "json" "" Option.none [] false (fun _ => "ENC")
      (-1) false true).data = Val.str "ENC" :=
  ⟨(mk_task_autodetect_json_content ⟨"http://h/", []⟩ "post"
      (.cons "a" (.int 1) .nil) [("x-lol", "1")] "" "json" "" Option.none
      [] false (fun _ => "ENC") (-1) false (by decide) (by decide)).1,
   (mk_task_autodetect_json_content ⟨"http://h/", []⟩ "post"
      (.cons "a" (.int 1) .nil) [("x-lol", "1")] "" "json" "" Option.none
      [] false (fun _ => "ENC") (-1) false (by decide) (by decide)).2.1
      (by decide)⟩

/-- The effective retry budget is always at least one attempt. -/
lemma one_le_effectiveNumRetries (b s : Int) :
    1 ≤ effectiveNumRetries b s := by
  simp only [effectiveNumRetries]
  split_ifs <;> omega

/-- When every attempt in the budget window makes the loop continue, the
loop exhausts its budget: it returns the empty result under
`fail_silently` and otherwise re-raises the `NetworkError` recorded on
the final attempt (whose `retries_left` is 0). -/
lemma fetchLoop_exhausts (rt : String) (dnw fs : Bool)
    (oracle : Nat → AttemptOutcome) (maxR : Int) :
    ∀ (fuel attempt : Nat) (last : Option NetworkError), 0 < fuel →
    (∀ i, attempt ≤ i → i < attempt + fuel →
      retriedOutcome dnw (oracle i) = true) →
    fetchLoop rt dnw fs oracle maxR fuel attempt last =
      if fs then .ok emptyFetchResult
      else .error (.network
        ⟨outcomeErrorCode (oracle (attempt + fuel - 1)), 0, maxR⟩) := by
  intro fuel
  induction fuel with
  | zero => exact fun _ _ h _ => absurd h (by omega)
  | succ f ih =>
    intro attempt last hpos hall
    have hcur : retriedOutcome dnw (oracle attempt) = true :=
      hall attempt le_rfl (by omega)
    rcases Nat.eq_zero_or_pos f with hf | hf
    · subst hf
      cases hor : oracle attempt with
      | timeout =>
        simp only [fetchLoop, hor]
        simp [outcomeErrorCode, hor]
      | oserror =>
        simp only [fetchLoop, hor]
        simp [outcomeErrorCode, hor]
      | response st ct dec hd =>
        have hco := hor ▸ hcur
        simp only [retriedOutcome, Bool.and_eq_true, Bool.not_eq_true'] at hco
        obtain ⟨hdnwf, hstt⟩ := hco
        subst hdnwf
        simp only [fetchLoop, hor, hstt, Bool.false_eq_true, if_false,
          if_true]
        simp [outcomeErrorCode, hor]
    · have hnext : ∀ i, attempt + 1 ≤ i → i < attempt + 1 + f →
          retriedOutcome dnw (oracle i) = true :=
        fun i h1 h2 => hall i (by omega) (by omega)
      have hidx : attempt + 1 + f - 1 = attempt + (f + 1) - 1 := by omega
      cases hor : oracle attempt with
      | timeout =>
        simp only [fetchLoop, hor]
        rw [ih (attempt + 1) _ hf hnext, hidx]
      | oserror =>
        simp only [fetchLoop, hor]
        rw [ih (attempt + 1) _ hf hnext, hidx]
      | response st ct dec hd =>
        have hco := hor ▸ hcur
        simp only [retriedOutcome, Bool.and_eq_true, Bool.not_eq_true'] at hco
        obtain ⟨hdnwf, hstt⟩ := hco
        subst hdnwf
        simp only [fetchLoop, hor, hstt, Bool.false_eq_true, if_false,
          if_true]
        rw [ih (attempt + 1) _ hf hnext, hidx]

/-! ## C1 -/

/-- C1: the effective retry budget is the bundle's `num_retries` when
non-negative, else the executor default, floored at one attempt; when
every attempt fails retryably, `fetch` returns
`FetchResult(status=0, headers=None, body={})` under `fail_silently` and
otherwise raises the `NetworkError` recorded on the last attempt. -/
theorem retry_budget_and_exhaustion (bundle : TaskBundle) (self_max : Int)
    (oracle : Nat → AttemptOutcome)
    (hdnw : bundle.do_not_wait = false)
    (hall : ∀ i < (effectiveNumRetries bundle.num_retries self_max).toNat,
      retriedOutcome false (oracle i) = true) :
    effectiveNumRetries bundle.num_retries self_max
      = max (if 0 ≤ bundle.num_retries then bundle.num_retries else self_max)
          1 ∧
    fetch self_max bundle oracle =
      (if bundle.fail_silently then .ok emptyFetchResult
       else .error (.network
         ⟨outcomeErrorCode (oracle
            ((effectiveNumRetries bundle.num_retries self_max).toNat - 1)),
          0, effectiveNumRetries bundle.num_retries self_max⟩)) ∧
    emptyFetchResult.headers = Val.none ∧
    emptyFetchResult.result = Val.dict .nil ∧
    emptyFetchResult.status = .ok (Val.int 0) := by
  have hn := one_le_effectiveNumRetries bundle.num_retries self_max
  refine ⟨?_, ?_, by decide, by decide, by decide⟩
  · simp only [effectiveNumRetries]
    split_ifs <;> omega
  · have h := fetchLoop_exhausts bundle.response_type bundle.do_not_wait
      bundle.fail_silently oracle
      (effectiveNumRetries bundle.num_retries self_max)
      (effectiveNumRetries bundle.num_retries self_max).toNat 0 Option.none
      (by omega)
      (fun i _ h2 => by
        rw [hdnw]
        exact hall i (by omega))
    simpa [fetch] using h

/-- C1 witness: budget resolved from the executor default (2), all
attempts time out, `fail_silently` off: the recorded error with
`retries_left = 0` is raised. -/
theorem retry_budget_and_exhaustion_witness :
    effectiveNumRetries (-1) 2 = max 2 1 ∧
    fetch 2 (TaskBundle.mk "get" ⟨"http://h/", []⟩ (Val.dict .nil) []
        "json" Option.none false (-1) false) (fun _ => .timeout)
      = .error (.network ⟨0, 0, 2⟩) := by
  have h := retry_budget_and_exhaustion
    (TaskBundle.mk "get" ⟨"http://h/", []⟩ (Val.dict .nil) [] "json"
      Option.none false (-1) false) 2 (fun _ => .timeout) rfl
    (fun _ _ => rfl)
  exact ⟨by simpa using h.1, by simpa using h.2.1⟩

/-! ## C2 -/

/-- C2: with `do_not_wait` off, a first-attempt response whose status is
outside `{524, 504, 502, 408}` is returned as a normal `FetchResult`
carrying that status, the response headers and the decoded body — never
raised; a status inside the set is instead recorded as a retryable
`NetworkError` (raised once the budget, here 1, is exhausted). -/
theorem nonretryable_status_normal_result (bundle : TaskBundle)
    (self_max : Int) (oracle : Nat → AttemptOutcome) (st : Nat)
    (ct : String) (dec : String → Val) (hd : Val)
    (hdnw : bundle.do_not_wait = false)
    (hresp : oracle 0 = .response st ct dec hd) :
    (retryableStatuses.contains st = false →
      fetch self_max bundle oracle =
        .ok (mkFetchResult hd (decodeResponse bundle.response_type ct dec)
          (.int st))) ∧
    (retryableStatuses.contains st = true → bundle.fail_silently = false →
      effectiveNumRetries bundle.num_retries self_max = 1 →
      fetch self_max bundle oracle = .error (.network ⟨(st : Int), 0, 1⟩)) := by
  have hn := one_le_effectiveNumRetries bundle.num_retries self_max
  obtain ⟨k, hk⟩ : ∃ k,
      (effectiveNumRetries bundle.num_retries self_max).toNat = k + 1 :=
    ⟨(effectiveNumRetries bundle.num_retries self_max).toNat - 1, by omega⟩
  constructor
  · intro hst
    simp only [fetch, hk, fetchLoop, hresp, hdnw, hst, Bool.false_eq_true,
      if_false]
  · intro hst hfs hone
    have h1 : (effectiveNumRetries bundle.num_retries self_max).toNat
        = 0 + 1 := by
      rw [hone]
      rfl
    simp only [fetch, h1, hone]
    simp only [fetchLoop, hresp, hdnw, hst, Bool.false_eq_true, if_false,
      if_true]
    simp [fetchLoop, hfs]

/-- C2 witness: a 404 response is delivered as a normal result. -/
theorem nonretryable_status_normal_result_witness :
    fetch 0 (TaskBundle.mk "get" ⟨"http://h/", []⟩ (Val.dict .nil) []
        "json" Option.none false (-1) false)
      (fun _ => .response 404 "application/json" (fun m => .str m) Val.none)
      = .ok (mkFetchResult Val.none (Val.str "json") (Val.int 404)) := by
  have h := (nonretryable_status_normal_result
    (TaskBundle.mk "get" ⟨"http://h/", []⟩ (Val.dict .nil) [] "json"
      Option.none false (-1) false) 0
    (fun _ => .response 404 "application/json" (fun m => .str m) Val.none)
    404 "application/json" (fun m => .str m) Val.none rfl rfl).1 (by decide)
  simpa [decodeResponse] using h

/-! ## C4 (corrected) -/

/-- C4 counterexample: a `do_not_wait` task whose single attempt fails
with a timeout — an endpoint outcome the claim covers — does not yield
`FetchResult(status=0, headers=None, body={})`: the exception is caught
before the `do_not_wait` check is ever reached, the budget (one attempt)
is exhausted, and `fetch` raises the recorded `NetworkError`. -/
theorem do_not_wait_counterexample :
    fetch 0 (TaskBundle.mk "get" ⟨"http://h/", []⟩ (Val.dict .nil) []
        "json" Option.none true (-1) false) (fun _ => .timeout)
      = .error (.network ⟨0, 0, 1⟩) := by
  rfl

/-- C4 amended: a `do_not_wait` task yields
`FetchResult(status=0, headers=None, body={})` whenever the attempt
obtains a response, regardless of the response's status and with no
retry; but an attempt that raises a timeout or connection error follows
the ordinary retry path, and once every attempt has so failed the task
returns the empty result only under `fail_silently`, otherwise raising
the recorded `NetworkError`. -/
theorem do_not_wait_behavior (bundle : TaskBundle) (self_max : Int)
    (oracle : Nat → AttemptOutcome) (st : Nat) (ct : String)
    (dec : String → Val) (hd : Val)
    (hdnw : bundle.do_not_wait = true) :
    (oracle 0 = .response st ct dec hd →
      fetch self_max bundle oracle = .ok emptyFetchResult) ∧
    ((∀ i < (effectiveNumRetries bundle.num_retries self_max).toNat,
        oracle i = .timeout ∨ oracle i = .oserror) →
      fetch self_max bundle oracle =
        if bundle.fail_silently then .ok emptyFetchResult
        else .error (.network
          ⟨0, 0, effectiveNumRetries bundle.num_retries self_max⟩)) := by
  have hn := one_le_effectiveNumRetries bundle.num_retries self_max
  obtain ⟨k, hk⟩ : ∃ k,
      (effectiveNumRetries bundle.num_retries self_max).toNat = k + 1 :=
    ⟨(effectiveNumRetries bundle.num_retries self_max).toNat - 1, by omega⟩
  constructor
  · intro hresp
    simp only [fetch, hk, fetchLoop, hresp, hdnw, if_true]
  · intro hall
    have hlast :
        outcomeErrorCode (oracle
          ((effectiveNumRetries bundle.num_retries self_max).toNat - 1))
          = 0 := by
      rcases hall ((effectiveNumRetries bundle.num_retries self_max).toNat
          - 1) (by omega) with h | h <;> rw [h] <;> rfl
    have h := fetchLoop_exhausts bundle.response_type bundle.do_not_wait
      bundle.fail_silently oracle
      (effectiveNumRetries bundle.num_retries self_max)
      (effectiveNumRetries bundle.num_retries self_max).toNat 0 Option.none
      (by omega)
      (fun i _ h2 => by
        rcases hall i (by omega) with h | h <;> rw [h] <;> rfl)
    simp only [Nat.zero_add] at h
    rw [hlast] at h
    simpa [fetch] using h

/-- C4 amended witness: a `do_not_wait` task against a 502 endpoint
yields the empty zero-status record. -/
theorem do_not_wait_behavior_witness :
    fetch 0 (TaskBundle.mk "get" ⟨"http://h/", []⟩ (Val.dict .nil) []
        "json" Option.none true (-1) false)
      (fun _ => .response 502 "text/html" (fun _ => .str "bad") Val.none)
      = .ok emptyFetchResult :=
  (do_not_wait_behavior
    (TaskBundle.mk "get" ⟨"http://h/", []⟩ (Val.dict .nil) [] "json"
      Option.none true (-1) false) 0
    (fun _ => .response 502 "text/html" (fun _ => .str "bad") Val.none)
    502 "text/html" (fun _ => .str "bad") Val.none rfl).1 rfl

/-! ## C8 -/

/-- C8: ownership of the connection pool is fixed at construction (owned
iff no connector was supplied) and preserved by every operation;
acquiring while borrowed returns the supplied connector and changes
nothing; teardown is the identity on a borrower, while on an owner it
leaves the memoized connector closed, and doing it twice is equally
safe; creation is lazy (no connector at construction), happens on first
acquisition, and an open memoized connector is always reused, so along
any sequence of acquisitions at most one connector is ever created. -/
theorem connector_ownership_lifecycle (c : Connector) (s : MixInState) :
    ((initMixIn Option.none).connector_owner = true ∧
      (initMixIn (some c)).connector_owner = false) ∧
    ((get_tcp_connector s).2.connector_owner = s.connector_owner ∧
      (mixinDel s).connector_owner = s.connector_owner) ∧
    (s.connector_owner = false →
      get_tcp_connector s = (s.tcp_connector, s) ∧ mixinDel s = s) ∧
    (s.connector_owner = true →
      (∃ c', (mixinDel s).tcp_connector = some c' ∧ c'.closed = true) ∧
      (∃ c', (mixinDel (mixinDel s)).tcp_connector = some c' ∧
        c'.closed = true)) ∧
    ((initMixIn Option.none).tcp_connector = Option.none ∧
      get_tcp_connector (initMixIn Option.none)
        = (some ⟨0, false⟩, ⟨true, some ⟨0, false⟩, 1⟩)) ∧
    (s.connector_owner = true → s.tcp_connector = some c →
      c.closed = false → get_tcp_connector s = (some c, s)) := by
  have hacq : ∀ t : MixInState, t.connector_owner = true →
      ∃ c', (mixinDel t).tcp_connector = some c' ∧ c'.closed = true ∧
        (mixinDel t).connector_owner = true := by
    intro t ht
    cases htc : t.tcp_connector with
    | none =>
      exact ⟨⟨t.next_cid, true⟩,
        by simp [mixinDel, get_tcp_connector, ht, htc], rfl,
        by simp [mixinDel, get_tcp_connector, ht, htc]⟩
    | some c0 =>
      cases hc0 : c0.closed with
      | false =>
        exact ⟨⟨c0.cid, true⟩,
          by simp [mixinDel, get_tcp_connector, ht, htc, hc0], rfl,
          by simp [mixinDel, get_tcp_connector, ht, htc, hc0]⟩
      | true =>
        exact ⟨⟨t.next_cid, true⟩,
          by simp [mixinDel, get_tcp_connector, ht, htc, hc0], rfl,
          by simp [mixinDel, get_tcp_connector, ht, htc, hc0]⟩
  refine ⟨⟨rfl, rfl⟩, ⟨?_, ?_⟩, ?_, ?_, ⟨rfl, rfl⟩, ?_⟩
  · by_cases how : s.connector_owner = false
    · simp [get_tcp_connector, how]
    · cases htc : s.tcp_connector with
      | none => simp [get_tcp_connector, how, htc]
      | some c0 =>
        cases hc0 : c0.closed <;>
          simp [get_tcp_connector, how, htc, hc0]
  · by_cases how : s.connector_owner = true
    · cases htc : s.tcp_connector with
      | none => simp [mixinDel, get_tcp_connector, how, htc]
      | some c0 =>
        cases hc0 : c0.closed <;>
          simp [mixinDel, get_tcp_connector, how, htc, hc0]
    · simp [mixinDel, how]
  · intro hb
    refine ⟨by simp [get_tcp_connector, hb], by simp [mixinDel, hb]⟩
  · intro ho
    obtain ⟨c1, hc1, hcl1, how1⟩ := hacq s ho
    exact ⟨⟨c1, hc1, hcl1⟩,
      (hacq (mixinDel s) how1).imp fun c2 h => ⟨h.1, h.2.1⟩⟩
  · intro ho htc hcl
    simp [get_tcp_connector, ho, htc, hcl]

/-- C8 witness: a borrowed connector survives teardown untouched, and an
owner's lazily created connector reports closed after teardown. -/
theorem connector_ownership_lifecycle_witness :
    mixinDel (initMixIn (some ⟨7, false⟩)) = initMixIn (some ⟨7, false⟩) ∧
    ∃ c', (mixinDel ⟨true, some ⟨0, false⟩, 1⟩).tcp_connector = some c' ∧
      c'.closed = true :=
  ⟨((connector_ownership_lifecycle ⟨7, false⟩
      (initMixIn (some ⟨7, false⟩))).2.2.1 rfl).2,
   ((connector_ownership_lifecycle ⟨7, false⟩
      ⟨true, some ⟨0, false⟩, 1⟩).2.2.2.1 rfl).1⟩

end AsyncFetcher
